import Mathlib

/-!
Shallow embedding of the name-resolution and round-robin address-pool
subsystem of hcpsdk (file src/hcpsdk/ips/__init__.py).

The two external effects of the code are the two DNS lookup facilities:
socket.getaddrinfo (the system-resolver path, cache=True) and
dns.resolver.query (the bypass path, cache=False).  Both are modelled as
oracle outcomes supplied in a QueryEnv value: the outcome getaddrinfo
would produce (as a function of the port argument passed to it, so that
the fixed port 443 in the code stays observable) and the outcome
dns.resolver.query would produce (either a list of raw record strings,
one of the eight enumerated dnspython exceptions, or any other exception
with its message).

Python exceptions escaping a function are modelled with Except.error or
with the OpResult.exn constructor; a call that never returns (an
infinite loop inside the generator, or a deadlock on the already-held
threading.Lock) is modelled with OpResult.hang.  Machine behaviour of
Python int(s, 16) is modelled over ASCII strings (whitespace stripping,
an optional sign, an optional 0x prefix, underscore-separated hex
digits), and str of a Python int is decimal with a leading minus sign,
matching toString on Int.
-/

namespace hcpsdk

/-- Outcome of a socket.getaddrinfo call: either the list of resolved
sockaddr address strings (the a[4][0] components the code extracts), or
an exception with message str(e). -/
inductive SysOutcome where
  | success (addrs : List String)
  | error (msg : String)
deriving DecidableEq

/-- Outcome of a dns.resolver.query call: the raw answer records (their
str forms), one of the eight enumerated dnspython exceptions, or any
other exception carrying its message str(e). -/
inductive DnsOutcome where
  | success (records : List String)
  | nxdomain
  | yxdomain
  | timeout
  | noAnswer
  | noNameservers
  | notAbsolute
  | noRootSOA
  | noMetaqueries
  | otherError (msg : String)
deriving DecidableEq

/-- The environment a single resolution event runs against: what the
system resolver would answer (as a function of the queried port) and
what the direct DNS query would answer. -/
structure QueryEnv where
  sys : Nat → SysOutcome
  dns : DnsOutcome

/-- The response object built by query() (class response in the
source): queried name, which path was used, collected address strings,
and the failure description (empty string when no failure was
recorded). -/
structure response where
  fqdn : String
  cache : Bool
  ips : List String
  raised : String
deriving DecidableEq

/-- Whitespace characters stripped by Python str.strip() (ASCII
subset). -/
def isPySpace (c : Char) : Bool :=
  c = ' ' || c = '\t' || c = '\n' || c = '\r' || c = '\x0b' || c = '\x0c'

/-- Strip leading and trailing whitespace, as str.strip() does before
int() parses a literal. -/
def pyStrip (cs : List Char) : List Char :=
  ((cs.dropWhile isPySpace).reverse.dropWhile isPySpace).reverse

/-- Value of one hexadecimal digit, if the character is one. -/
def hexDigitVal (c : Char) : Option Nat :=
  if '0' ≤ c ∧ c ≤ '9' then some (c.toNat - '0'.toNat)
  else if 'a' ≤ c ∧ c ≤ 'f' then some (c.toNat - 'a'.toNat + 10)
  else if 'A' ≤ c ∧ c ≤ 'F' then some (c.toNat - 'A'.toNat + 10)
  else none

/-- Continue parsing hex digits where a single underscore may separate
two digits (Python numeric-literal rule); acc is the value parsed so
far. -/
def parseUDigitsAux (acc : Nat) : List Char → Option Nat
  | [] => some acc
  | ['_'] => none
  | '_' :: c :: rest =>
    match hexDigitVal c with
    | some v => parseUDigitsAux (acc * 16 + v) rest
    | none => none
  | c :: rest =>
    match hexDigitVal c with
    | some v => parseUDigitsAux (acc * 16 + v) rest
    | none => none

/-- Nonempty run of hex digits with single underscores between digits;
a leading underscore is invalid. -/
def parseUnderscored : List Char → Option Nat
  | [] => none
  | c :: rest =>
    match hexDigitVal c with
    | some v => parseUDigitsAux v rest
    | none => none

/-- After a 0x prefix Python additionally allows one underscore before
the first digit. -/
def parseAfterPrefix : List Char → Option Nat
  | '_' :: rest => parseUnderscored rest
  | cs => parseUnderscored cs

/-- Magnitude part of int(s, 16): optional 0x or 0X prefix, then hex
digits. -/
def pyIntHexMag : List Char → Option Nat
  | '0' :: 'x' :: rest => parseAfterPrefix rest
  | '0' :: 'X' :: rest => parseAfterPrefix rest
  | cs => parseUnderscored cs

/-- Python int(s, 16) on an ASCII string: strip whitespace, optional
single sign, magnitude; none models the ValueError raise. -/
def pyIntHex (cs : List Char) : Option Int :=
  match pyStrip cs with
  | '+' :: rest => (pyIntHexMag rest).map (fun n => (n : Int))
  | '-' :: rest => (pyIntHexMag rest).map (fun n => -(n : Int))
  | stripped => (pyIntHexMag stripped).map (fun n => (n : Int))

/-- The format template of the source joins the four decoded octets
with dots; str of a Python int agrees with toString on Int. -/
def formatOctets (o1 o2 o3 o4 : Int) : String :=
  toString o1 ++ "." ++ toString o2 ++ "." ++ toString o3 ++ "." ++ toString o4

/-- Per-record normalization in the else-branch of the bypass path:
ip = str(i); if ip[1] == the hash mark, take the last 8 characters and
decode the four 2-character slices with int(-, 16); append str(ip).
Indexing ip[1] raises IndexError on strings shorter than 2 characters,
and int raises ValueError on a slice that is not a hex literal; both
escape query() and are modelled as Except.error. -/
def normalizeRecord (ip : String) : Except String String :=
  let cs := ip.data
  match cs.get? 1 with
  | none => Except.error "IndexError: string index out of range"
  | some marker =>
    if marker = '#' then
      let hx := cs.drop (cs.length - 8)
      match pyIntHex (hx.take 2), pyIntHex ((hx.drop 2).take 2),
            pyIntHex ((hx.drop 4).take 2), pyIntHex (hx.drop 6) with
      | some o1, some o2, some o3, some o4 => Except.ok (formatOctets o1 o2 o3 o4)
      | _, _, _, _ => Except.error "ValueError: invalid literal for int() with base 16"
    else Except.ok ip

/-- The for-loop of the else-branch applied to every record; the first
exception escapes. -/
def normalizeAll : List String → Except String (List String)
  | [] => Except.ok []
  | r :: rs =>
    match normalizeRecord r with
    | Except.error e => Except.error e
    | Except.ok ip =>
      match normalizeAll rs with
      | Except.error e => Except.error e
      | Except.ok rest => Except.ok (ip :: rest)

/-- The query() function of the source.  cache=True delegates to
socket.getaddrinfo(fqdn, 443, AF_INET, SOCK_DGRAM) and stores either
the addresses or str(e); cache=False delegates to dns.resolver.query
with the eight enumerated except-clauses plus a generic one, then
normalizes every record of the answer rrset and maps an empty result
list to the failure description "no response".  Except.error models an
exception escaping query() itself. -/
def query (fqdn : String) (cache : Bool) (env : QueryEnv) : Except String response :=
  if cache then
    match env.sys 443 with
    | SysOutcome.error e => Except.ok (response.mk fqdn cache [] e)
    | SysOutcome.success addrs => Except.ok (response.mk fqdn cache addrs "")
  else
    match env.dns with
    | DnsOutcome.nxdomain =>
        Except.ok (response.mk fqdn cache []
          "NXDOMAIN - The query name does not exist.")
    | DnsOutcome.yxdomain =>
        Except.ok (response.mk fqdn cache []
          "The query name is too long after DNAME substitution.")
    | DnsOutcome.timeout =>
        Except.ok (response.mk fqdn cache [] "The operation timed out.")
    | DnsOutcome.noAnswer =>
        Except.ok (response.mk fqdn cache []
          "The response did not contain an answer to the question.")
    | DnsOutcome.noNameservers =>
        Except.ok (response.mk fqdn cache []
          "NoNameservers - No non-broken nameservers are available to answer the query.")
    | DnsOutcome.notAbsolute =>
        Except.ok (response.mk fqdn cache []
          "Raised if an absolute domain name is required but a relative name was provided.")
    | DnsOutcome.noRootSOA =>
        Except.ok (response.mk fqdn cache []
          "Raised if for some reason there is no SOA at the root name. This should never happen!")
    | DnsOutcome.noMetaqueries =>
        Except.ok (response.mk fqdn cache [] "Metaqueries are not allowed.")
    | DnsOutcome.otherError e => Except.ok (response.mk fqdn cache [] e)
    | DnsOutcome.success records =>
      match normalizeAll records with
      | Except.error e => Except.error e
      | Except.ok ips =>
        if ips.isEmpty then Except.ok (response.mk fqdn cache ips "no response")
        else Except.ok (response.mk fqdn cache ips "")

/-- State of the generator object stored in the __generator slot of a
Circle: None (initial slot value), a created-but-not-yet-started
generator closure over a dns name, a started generator positioned
inside its round-robin loop, or a finished generator (one whose body
raised); next() on a finished generator raises StopIteration. -/
inductive GenState where
  | noneGen
  | notStarted (dnsname : String)
  | running (pos : Nat)
  | dead
deriving DecidableEq

/-- Mutable state of a Circle object: the authority name and port given
to the constructor, whether the threading.Lock is currently held, the
__generator slot, and the _addresses cache. -/
structure Circle where
  authority : String
  port : Nat
  lockHeld : Bool
  generator : GenState
  addresses : List String
deriving DecidableEq

/-- Result of one call into the pool: a returned value together with
the state of the Circle object afterwards, a raised exception (message)
together with the state afterwards, or a call that never returns. -/
inductive OpResult (α : Type) where
  | ok (val : α) (state : Circle)
  | exn (msg : String) (state : Circle)
  | hang
deriving DecidableEq

/-- First next() on a freshly created __addr generator: the body clears
self._addresses, runs query(dnsname, cache=True), raises
IpsError(result.raised) when the result carries a failure description
(string truthiness: any nonempty string), stores result.ips, and then
enters the round-robin loop; with an empty list the loop never yields,
so next() never returns.  The raise paths leave the generator finished
and, in the caller _addr, skip the lock release. -/
def runNotStarted (env : QueryEnv) (f : String) (s : Circle) : OpResult String :=
  match query f true env with
  | Except.error e =>
    OpResult.exn e { s with addresses := [], generator := GenState.dead }
  | Except.ok r =>
    if r.raised ≠ "" then
      OpResult.exn r.raised { s with addresses := [], generator := GenState.dead }
    else
      match r.ips with
      | [] => OpResult.hang
      | a :: tl =>
        OpResult.ok a { s with addresses := a :: tl,
                               generator := GenState.running (1 % (a :: tl).length),
                               lockHeld := false }

/-- next(self.__generator) while the lock is held.  next(None) raises
TypeError; a running generator yields the cached address at its cursor
and wraps the cursor; a finished generator raises StopIteration.  Only
the normal-return path releases the lock (the release call in _addr is
skipped when next() raises). -/
def genNext (env : QueryEnv) (s : Circle) : OpResult String :=
  match s.generator with
  | GenState.noneGen => OpResult.exn "TypeError: NoneType object is not an iterator" s
  | GenState.dead => OpResult.exn "StopIteration" s
  | GenState.notStarted f => runNotStarted env f s
  | GenState.running p =>
    match s.addresses with
    | [] => OpResult.hang
    | a :: tl =>
      OpResult.ok ((a :: tl).getD (p % (a :: tl).length) "")
        { s with generator := GenState.running ((p + 1) % (a :: tl).length),
                 lockHeld := false }

/-- Circle._addr: acquire the (non-reentrant) lock - acquiring it while
it is already held deadlocks the calling thread; when a truthy fqdn is
given, replace the __generator slot with a fresh generator closure;
then pull one value from the generator. -/
def circleAddr (env : QueryEnv) (fqdnOpt : Option String) (s : Circle) : OpResult String :=
  if s.lockHeld then OpResult.hang
  else
    match fqdnOpt with
    | some f =>
      if f = "" then genNext env { s with lockHeld := true }
      else genNext env { s with lockHeld := true, generator := GenState.notStarted f }
    | none => genNext env { s with lockHeld := true }

/-- Discard the value a call into _addr produced (both __init__ and
refresh() ignore the address the first next() yielded). -/
def dropVal {α : Type} : OpResult α → OpResult Unit
  | OpResult.ok _ s => OpResult.ok () s
  | OpResult.exn m s => OpResult.exn m s
  | OpResult.hang => OpResult.hang

/-- Circle.__init__(fqdn, port): build the initial slots and perform
the initial lookup through _addr(fqdn); the address the generator
yields during construction is discarded. -/
def circleInit (env : QueryEnv) (fqdn : String) (port : Nat) : OpResult Unit :=
  dropVal (circleAddr env (some fqdn)
    (Circle.mk fqdn port false GenState.noneGen []))

/-- The public parameterless use of _addr: serve the next cached
address round-robin. -/
def nextAddress (env : QueryEnv) (s : Circle) : OpResult String :=
  circleAddr env none s

/-- Circle.refresh(): _addr(fqdn=self.__authority), return value
discarded. -/
def refresh (env : QueryEnv) (s : Circle) : OpResult Unit :=
  dropVal (circleAddr env (some s.authority) s)

/-- Outputs of n consecutive nextAddress calls, with the final state;
none when some call raises or never returns. -/
def nextN (env : QueryEnv) : Nat → Circle → Option (List String × Circle)
  | 0, s => some ([], s)
  | n + 1, s =>
    match nextAddress env s with
    | OpResult.ok a s' =>
      match nextN env n s' with
      | some (rest, sf) => some (a :: rest, sf)
      | none => none
    | _ => none

/-- The quiescent pool states: lock free, nonempty address cache, and a
running generator whose cursor lies inside the cache.  Every state a
Circle is left in by a successful construction, nextAddress or refresh
satisfies this. -/
def goodStateB (s : Circle) : Bool :=
  !s.lockHeld && !s.addresses.isEmpty &&
    (match s.generator with
     | GenState.running p => decide (p < s.addresses.length)
     | _ => false)

/-- Overwrite the port slot of a Circle. -/
def setPort (p : Nat) (s : Circle) : Circle := { s with port := p }

/-- Apply a state transformation to the state component of an
OpResult. -/
def OpResult.mapState {α : Type} (f : Circle → Circle) : OpResult α → OpResult α
  | OpResult.ok v s => OpResult.ok v (f s)
  | OpResult.exn m s => OpResult.exn m (f s)
  | OpResult.hang => OpResult.hang

/-- Rendering rule as the words of claim C6 prescribe it (clearly
distinct from the rule of the source, which tests for the hash mark):
whenever the second character of the record is not a digit, decode the
last 8 characters as four 2-digit hex octets; otherwise render the
record directly. -/
def specNormalizeC6 (ip : String) : Except String String :=
  let cs := ip.data
  match cs.get? 1 with
  | none => Except.error "IndexError: string index out of range"
  | some marker =>
    if ¬ marker.isDigit then
      let hx := cs.drop (cs.length - 8)
      match pyIntHex (hx.take 2), pyIntHex ((hx.drop 2).take 2),
            pyIntHex ((hx.drop 4).take 2), pyIntHex (hx.drop 6) with
      | some o1, some o2, some o3, some o4 => Except.ok (formatOctets o1 o2 o3 o4)
      | _, _, _, _ => Except.error "ValueError: invalid literal for int() with base 16"
    else Except.ok ip

/-! Helper lemmas about the embedding, shared by the claim theorems
below. -/

theorem query_cache_sys (f : String) (env env2 : QueryEnv)
    (h : env.sys 443 = env2.sys 443) :
    query f true env = query f true env2 := by
  unfold query
  rw [if_pos rfl, if_pos rfl, h]

theorem runNotStarted_sys (env env2 : QueryEnv) (f : String) (s : Circle)
    (h : env.sys 443 = env2.sys 443) :
    runNotStarted env f s = runNotStarted env2 f s := by
  unfold runNotStarted
  rw [query_cache_sys f env env2 h]

theorem genNext_sys (env env2 : QueryEnv) (s : Circle)
    (h : env.sys 443 = env2.sys 443) :
    genNext env s = genNext env2 s := by
  rcases s with ⟨au, po, lh, g, ad⟩
  cases g with
  | noneGen => rfl
  | dead => rfl
  | notStarted f => exact runNotStarted_sys env env2 f _ h
  | running p => rfl

theorem circleAddr_sys (env env2 : QueryEnv) (o : Option String) (s : Circle)
    (h : env.sys 443 = env2.sys 443) :
    circleAddr env o s = circleAddr env2 o s := by
  rcases s with ⟨au, po, lh, g, ad⟩
  cases lh with
  | true => rfl
  | false =>
    cases o with
    | none =>
      show genNext env (Circle.mk au po true g ad) =
        genNext env2 (Circle.mk au po true g ad)
      exact genNext_sys env env2 _ h
    | some f =>
      by_cases hf : f = ""
      · show (if f = "" then genNext env (Circle.mk au po true g ad)
              else genNext env (Circle.mk au po true (GenState.notStarted f) ad)) =
            (if f = "" then genNext env2 (Circle.mk au po true g ad)
              else genNext env2 (Circle.mk au po true (GenState.notStarted f) ad))
        rw [if_pos hf, if_pos hf]
        exact genNext_sys env env2 _ h
      · show (if f = "" then genNext env (Circle.mk au po true g ad)
              else genNext env (Circle.mk au po true (GenState.notStarted f) ad)) =
            (if f = "" then genNext env2 (Circle.mk au po true g ad)
              else genNext env2 (Circle.mk au po true (GenState.notStarted f) ad))
        rw [if_neg hf, if_neg hf]
        exact genNext_sys env env2 _ h

theorem circleAddr_locked (env : QueryEnv) (o : Option String) (s : Circle)
    (h : s.lockHeld = true) : circleAddr env o s = OpResult.hang := by
  unfold circleAddr
  rw [if_pos h]

theorem circleAddr_resolve (env : QueryEnv) (f : String) (s : Circle)
    (hl : s.lockHeld = false) (hf : f ≠ "") :
    circleAddr env (some f) s =
      runNotStarted env f
        { s with lockHeld := true, generator := GenState.notStarted f } := by
  unfold circleAddr
  rw [if_neg (by simp [hl])]
  show (if f = "" then genNext env { s with lockHeld := true }
        else genNext env { s with lockHeld := true,
                                  generator := GenState.notStarted f }) =
      runNotStarted env f
        { s with lockHeld := true, generator := GenState.notStarted f }
  rw [if_neg hf]
  rfl

theorem runNotStarted_ok (env : QueryEnv) (f : String) (s : Circle)
    (a : String) (tl : List String)
    (hs : env.sys 443 = SysOutcome.success (a :: tl)) :
    runNotStarted env f s =
      OpResult.ok a { s with addresses := a :: tl,
                             generator := GenState.running (1 % (a :: tl).length),
                             lockHeld := false } := by
  unfold runNotStarted query
  rw [if_pos rfl, hs]
  rfl

theorem runNotStarted_err (env : QueryEnv) (f : String) (s : Circle) (e : String)
    (hs : env.sys 443 = SysOutcome.error e) (he : e ≠ "") :
    runNotStarted env f s =
      OpResult.exn e { s with addresses := [], generator := GenState.dead } := by
  unfold runNotStarted query
  rw [if_pos rfl, hs]
  simp [he]

theorem runNotStarted_empty (env : QueryEnv) (f : String) (s : Circle)
    (hs : env.sys 443 = SysOutcome.success []) :
    runNotStarted env f s = OpResult.hang := by
  unfold runNotStarted query
  rw [if_pos rfl, hs]
  rfl

theorem nextAddress_running (env : QueryEnv) (au : String) (po p : Nat)
    (a : String) (tl : List String) :
    nextAddress env (Circle.mk au po false (GenState.running p) (a :: tl)) =
      OpResult.ok ((a :: tl).getD (p % (a :: tl).length) "")
        (Circle.mk au po false
          (GenState.running ((p + 1) % (a :: tl).length)) (a :: tl)) := rfl

theorem runNotStarted_err_blank (env : QueryEnv) (f : String) (s : Circle)
    (hs : env.sys 443 = SysOutcome.error "") :
    runNotStarted env f s = OpResult.hang := by
  unfold runNotStarted query
  rw [if_pos rfl, hs]
  rfl

theorem runNotStarted_exn_lockHeld (env : QueryEnv) (f : String) (s s2 : Circle)
    (m : String) (hl : s.lockHeld = true)
    (h : runNotStarted env f s = OpResult.exn m s2) : s2.lockHeld = true := by
  cases hsys : env.sys 443 with
  | success addrs =>
    cases addrs with
    | nil =>
      rw [runNotStarted_empty env f s hsys] at h
      exact OpResult.noConfusion h
    | cons a tl =>
      rw [runNotStarted_ok env f s a tl hsys] at h
      exact OpResult.noConfusion h
  | error e =>
    by_cases he : e = ""
    · subst he
      rw [runNotStarted_err_blank env f s hsys] at h
      exact OpResult.noConfusion h
    · rw [runNotStarted_err env f s e hsys he] at h
      cases h
      exact hl

theorem genNext_exn_lockHeld (env : QueryEnv) (s s2 : Circle) (m : String)
    (hl : s.lockHeld = true) (h : genNext env s = OpResult.exn m s2) :
    s2.lockHeld = true := by
  rcases s with ⟨au, po, lh, g, ad⟩
  cases g with
  | noneGen => cases h; exact hl
  | dead => cases h; exact hl
  | notStarted f =>
    exact runNotStarted_exn_lockHeld env f
      (Circle.mk au po lh (GenState.notStarted f) ad) s2 m hl h
  | running p =>
    cases ad with
    | nil => exact OpResult.noConfusion h
    | cons a tl => exact OpResult.noConfusion h

theorem circleAddr_exn_lockHeld (env : QueryEnv) (o : Option String) (s s2 : Circle)
    (m : String) (h : circleAddr env o s = OpResult.exn m s2) : s2.lockHeld = true := by
  rcases s with ⟨au, po, lh, g, ad⟩
  cases lh with
  | true => exact OpResult.noConfusion h
  | false =>
    cases o with
    | none => exact genNext_exn_lockHeld env (Circle.mk au po true g ad) s2 m rfl h
    | some f =>
      by_cases hf : f = ""
      · subst hf
        exact genNext_exn_lockHeld env (Circle.mk au po true g ad) s2 m rfl h
      · rw [circleAddr_resolve env f (Circle.mk au po false g ad) rfl hf] at h
        exact runNotStarted_exn_lockHeld env f
          (Circle.mk au po true (GenState.notStarted f) ad) s2 m rfl h

theorem dropVal_exn {α : Type} (r : OpResult α) (m : String) (s2 : Circle)
    (h : dropVal r = OpResult.exn m s2) : r = OpResult.exn m s2 := by
  cases r with
  | ok v s => exact OpResult.noConfusion h
  | hang => exact OpResult.noConfusion h
  | exn e s => cases h; rfl

theorem refresh_exn_lockHeld (env : QueryEnv) (s s2 : Circle) (m : String)
    (h : refresh env s = OpResult.exn m s2) : s2.lockHeld = true := by
  unfold refresh at h
  exact circleAddr_exn_lockHeld env (some s.authority) s s2 m
    (dropVal_exn (circleAddr env (some s.authority) s) m s2 h)

theorem goodStateB_mk (au : String) (po p : Nat) (a : String) (tl : List String)
    (hp : p < (a :: tl).length) :
    goodStateB (Circle.mk au po false (GenState.running p) (a :: tl)) = true := by
  simp only [List.length_cons] at hp
  simp [goodStateB, hp]

theorem nextAddress_good (env : QueryEnv) (s : Circle) (h : goodStateB s = true) :
    ∃ a s2, nextAddress env s = OpResult.ok a s2 ∧ goodStateB s2 = true ∧
      s2.addresses = s.addresses := by
  rcases s with ⟨au, po, lh, g, ad⟩
  cases g with
  | noneGen => simp [goodStateB] at h
  | dead => simp [goodStateB] at h
  | notStarted f => simp [goodStateB] at h
  | running p =>
    simp only [goodStateB, Bool.and_eq_true, Bool.not_eq_true', List.isEmpty_eq_false,
      decide_eq_true_eq] at h
    obtain ⟨⟨hl, hne⟩, hp⟩ := h
    subst hl
    cases ad with
    | nil => exact absurd rfl hne
    | cons a tl =>
      refine ⟨(a :: tl).getD (p % (a :: tl).length) "",
        Circle.mk au po false (GenState.running ((p + 1) % (a :: tl).length)) (a :: tl),
        nextAddress_running env au po p a tl, ?_, rfl⟩
      exact goodStateB_mk au po ((p + 1) % (a :: tl).length) a tl
        (Nat.mod_lt _ (Nat.succ_pos tl.length))

theorem nextN_running (env : QueryEnv) (au : String) (po : Nat) (a : String)
    (tl : List String) :
    ∀ (n p : Nat), p < (a :: tl).length →
      nextN env n (Circle.mk au po false (GenState.running p) (a :: tl)) =
        some (((List.range n).map fun i =>
            (a :: tl).getD ((p + i) % (a :: tl).length) ""),
          Circle.mk au po false
            (GenState.running ((p + n) % (a :: tl).length)) (a :: tl))
  | 0, p, hp => by
    have hp2 : p < tl.length + 1 := by simpa using hp
    simp only [nextN, List.range_zero, List.map_nil, Nat.add_zero, List.length_cons,
      Nat.mod_eq_of_lt hp2]
  | n + 1, p, hp => by
    have hpos : 0 < (a :: tl).length := Nat.succ_pos tl.length
    simp only [nextN, nextAddress_running env au po p a tl,
      nextN_running env au po a tl n ((p + 1) % (a :: tl).length) (Nat.mod_lt _ hpos)]
    have h1 : ((p + 1) % (a :: tl).length + n) % (a :: tl).length =
        (p + (n + 1)) % (a :: tl).length := by
      rw [Nat.mod_add_mod]
      congr 1
      omega
    have h2 : ((List.range n).map fun i =>
          (a :: tl).getD (((p + 1) % (a :: tl).length + i) % (a :: tl).length) "") =
        ((List.range n).map fun i =>
          (a :: tl).getD ((p + (i + 1)) % (a :: tl).length) "") := by
      apply List.map_congr_left
      intro i _
      rw [Nat.mod_add_mod]
      congr 2
      omega
    rw [h1, h2, List.range_succ_eq_map, List.map_cons, List.map_map]
    simp only [Nat.add_zero, Function.comp]
    rfl

theorem window_rotate (l : List String) (p : Nat) (hp : p < l.length) :
    ((List.range l.length).map fun i => l.getD ((p + i) % l.length) "") =
      l.rotate p := by
  have hpos : 0 < l.length := lt_of_le_of_lt (Nat.zero_le p) hp
  apply List.ext_getElem
  · simp [List.length_rotate]
  · intro i h1 h2
    simp only [List.getElem_map, List.getElem_range]
    rw [List.getElem_rotate]
    rw [Nat.add_comm p i]
    exact List.getD_eq_getElem l "" (Nat.mod_lt _ hpos)

theorem window_rotate_two (l : List String) (p : Nat) (hp : p < l.length) :
    ((List.range (l.length + l.length)).map fun i =>
        l.getD ((p + i) % l.length) "") =
      l.rotate p ++ l.rotate p := by
  rw [List.range_add, List.map_append, List.map_map]
  congr 1
  · exact window_rotate l p hp
  · rw [← window_rotate l p hp]
    apply List.map_congr_left
    intro i _
    show l.getD ((p + (l.length + i)) % l.length) "" =
      l.getD ((p + i) % l.length) ""
    have he : p + (l.length + i) = p + i + l.length := by omega
    rw [he, Nat.add_mod_right]

theorem circleInit_ok (env : QueryEnv) (f : String) (po : Nat) (a : String)
    (tl : List String) (hf : f ≠ "") (hs : env.sys 443 = SysOutcome.success (a :: tl)) :
    circleInit env f po =
      OpResult.ok () (Circle.mk f po false
        (GenState.running (1 % (a :: tl).length)) (a :: tl)) := by
  unfold circleInit
  rw [circleAddr_resolve env f _ rfl hf, runNotStarted_ok env f _ a tl hs]
  rfl

theorem circleInit_err (env : QueryEnv) (f : String) (po : Nat) (e : String)
    (hf : f ≠ "") (he : e ≠ "") (hs : env.sys 443 = SysOutcome.error e) :
    circleInit env f po =
      OpResult.exn e (Circle.mk f po true GenState.dead []) := by
  unfold circleInit
  rw [circleAddr_resolve env f _ rfl hf, runNotStarted_err env f _ e hs he]
  rfl

theorem circleInit_empty (env : QueryEnv) (f : String) (po : Nat)
    (hf : f ≠ "") (hs : env.sys 443 = SysOutcome.success []) :
    circleInit env f po = OpResult.hang := by
  unfold circleInit
  rw [circleAddr_resolve env f _ rfl hf, runNotStarted_empty env f _ hs]
  rfl

theorem refresh_ok (env : QueryEnv) (s : Circle) (a : String) (tl : List String)
    (hl : s.lockHeld = false) (ha : s.authority ≠ "")
    (hs : env.sys 443 = SysOutcome.success (a :: tl)) :
    refresh env s =
      OpResult.ok () { s with addresses := a :: tl,
                              generator := GenState.running (1 % (a :: tl).length),
                              lockHeld := false } := by
  unfold refresh
  rw [circleAddr_resolve env s.authority s hl ha,
    runNotStarted_ok env s.authority _ a tl hs]
  rfl

theorem refresh_err (env : QueryEnv) (s : Circle) (e : String)
    (hl : s.lockHeld = false) (ha : s.authority ≠ "") (he : e ≠ "")
    (hs : env.sys 443 = SysOutcome.error e) :
    refresh env s =
      OpResult.exn e { s with addresses := [], generator := GenState.dead,
                              lockHeld := true } := by
  unfold refresh
  rw [circleAddr_resolve env s.authority s hl ha,
    runNotStarted_err env s.authority _ e hs he]
  rfl

theorem refresh_empty (env : QueryEnv) (s : Circle)
    (hl : s.lockHeld = false) (ha : s.authority ≠ "")
    (hs : env.sys 443 = SysOutcome.success []) :
    refresh env s = OpResult.hang := by
  unfold refresh
  rw [circleAddr_resolve env s.authority s hl ha,
    runNotStarted_empty env s.authority _ hs]
  rfl

theorem circleInit_sys (env env2 : QueryEnv) (f : String) (po : Nat)
    (h : env.sys 443 = env2.sys 443) :
    circleInit env f po = circleInit env2 f po := by
  unfold circleInit
  rw [circleAddr_sys env env2 (some f) _ h]

theorem refresh_sys (env env2 : QueryEnv) (s : Circle)
    (h : env.sys 443 = env2.sys 443) :
    refresh env s = refresh env2 s := by
  unfold refresh
  rw [circleAddr_sys env env2 (some s.authority) s h]

theorem query_env_only (f : String) (cache : Bool) (env env2 : QueryEnv)
    (h1 : env.sys 443 = env2.sys 443) (h2 : env.dns = env2.dns) :
    query f cache env = query f cache env2 := by
  cases cache with
  | true => exact query_cache_sys f env env2 h1
  | false =>
    unfold query
    rw [if_neg (by simp), if_neg (by simp), h2]

theorem dropVal_mapState {α : Type} (f : Circle → Circle) (r : OpResult α) :
    dropVal (OpResult.mapState f r) = OpResult.mapState f (dropVal r) := by
  cases r <;> rfl

theorem runNotStarted_setPort (env : QueryEnv) (f : String) (p : Nat) (s : Circle) :
    runNotStarted env f (setPort p s) =
      OpResult.mapState (setPort p) (runNotStarted env f s) := by
  rcases s with ⟨au, po, lh, g, ad⟩
  cases hsys : env.sys 443 with
  | success addrs =>
    cases addrs with
    | nil =>
      rw [runNotStarted_empty env f _ hsys, runNotStarted_empty env f _ hsys]
      rfl
    | cons a tl =>
      rw [runNotStarted_ok env f _ a tl hsys, runNotStarted_ok env f _ a tl hsys]
      rfl
  | error e =>
    by_cases he : e = ""
    · subst he
      rw [runNotStarted_err_blank env f _ hsys, runNotStarted_err_blank env f _ hsys]
      rfl
    · rw [runNotStarted_err env f _ e hsys he, runNotStarted_err env f _ e hsys he]
      rfl

theorem genNext_setPort (env : QueryEnv) (p : Nat) (s : Circle) :
    genNext env (setPort p s) = OpResult.mapState (setPort p) (genNext env s) := by
  rcases s with ⟨au, po, lh, g, ad⟩
  cases g with
  | noneGen => rfl
  | dead => rfl
  | notStarted f =>
    exact runNotStarted_setPort env f p (Circle.mk au po lh (GenState.notStarted f) ad)
  | running q =>
    cases ad with
    | nil => rfl
    | cons a tl => rfl

theorem circleAddr_setPort (env : QueryEnv) (o : Option String) (p : Nat) (s : Circle) :
    circleAddr env o (setPort p s) =
      OpResult.mapState (setPort p) (circleAddr env o s) := by
  rcases s with ⟨au, po, lh, g, ad⟩
  cases lh with
  | true => rfl
  | false =>
    cases o with
    | none => exact genNext_setPort env p (Circle.mk au po true g ad)
    | some f =>
      by_cases hf : f = ""
      · subst hf
        exact genNext_setPort env p (Circle.mk au po true g ad)
      · rw [circleAddr_resolve env f (setPort p (Circle.mk au po false g ad)) rfl hf,
          circleAddr_resolve env f (Circle.mk au po false g ad) rfl hf]
        exact runNotStarted_setPort env f p
          (Circle.mk au po true (GenState.notStarted f) ad)

theorem circleInit_setPort (env : QueryEnv) (f : String) (p1 p2 : Nat) :
    circleInit env f p1 = OpResult.mapState (setPort p1) (circleInit env f p2) := by
  unfold circleInit
  rw [← dropVal_mapState]
  congr 1
  exact circleAddr_setPort env (some f) p1 (Circle.mk f p2 false GenState.noneGen [])

theorem nextAddress_setPort (env : QueryEnv) (p : Nat) (s : Circle) :
    nextAddress env (setPort p s) =
      OpResult.mapState (setPort p) (nextAddress env s) :=
  circleAddr_setPort env none p s

theorem refresh_setPort (env : QueryEnv) (p : Nat) (s : Circle) :
    refresh env (setPort p s) = OpResult.mapState (setPort p) (refresh env s) := by
  rcases s with ⟨au, po, lh, g, ad⟩
  show dropVal (circleAddr env (some au) (setPort p (Circle.mk au po lh g ad))) =
    OpResult.mapState (setPort p)
      (dropVal (circleAddr env (some au) (Circle.mk au po lh g ad)))
  rw [← dropVal_mapState]
  congr 1
  exact circleAddr_setPort env (some au) p (Circle.mk au po lh g ad)

theorem goodStateB_lockHeld (s : Circle) (h : goodStateB s = true) :
    s.lockHeld = false := by
  rcases s with ⟨au, po, lh, g, ad⟩
  simp only [goodStateB, Bool.and_eq_true, Bool.not_eq_true'] at h
  exact h.1.1

theorem query_sys_err (f e : String) (env : QueryEnv)
    (hs : env.sys 443 = SysOutcome.error e) :
    query f true env = Except.ok (response.mk f true [] e) := by
  unfold query
  rw [if_pos rfl, hs]

theorem query_sys_ok (f : String) (addrs : List String) (env : QueryEnv)
    (hs : env.sys 443 = SysOutcome.success addrs) :
    query f true env = Except.ok (response.mk f true addrs "") := by
  unfold query
  rw [if_pos rfl, hs]

theorem query_bypass_raise (f : String) (env : QueryEnv) (records : List String)
    (e : String) (hdns : env.dns = DnsOutcome.success records)
    (hnorm : normalizeAll records = Except.error e) :
    query f false env = Except.error e := by
  unfold query
  rw [if_neg (by simp), hdns]
  show (match normalizeAll records with
    | Except.error e2 => Except.error e2
    | Except.ok ips =>
      if ips.isEmpty then Except.ok (response.mk f false ips "no response")
      else Except.ok (response.mk f false ips "")) = Except.error e
  rw [hnorm]

theorem query_bypass_success (f : String) (env : QueryEnv)
    (records : List String) (o : String) (os : List String)
    (hdns : env.dns = DnsOutcome.success records)
    (hnorm : normalizeAll records = Except.ok (o :: os)) :
    query f false env = Except.ok (response.mk f false (o :: os) "") := by
  unfold query
  rw [if_neg (by simp), hdns]
  show (match normalizeAll records with
    | Except.error e2 => Except.error e2
    | Except.ok ips =>
      if ips.isEmpty then Except.ok (response.mk f false ips "no response")
      else Except.ok (response.mk f false ips "")) =
    Except.ok (response.mk f false (o :: os) "")
  rw [hnorm]
  rfl

theorem query_bypass_success_empty (f : String) (env : QueryEnv)
    (records : List String) (hdns : env.dns = DnsOutcome.success records)
    (hnorm : normalizeAll records = Except.ok []) :
    query f false env = Except.ok (response.mk f false [] "no response") := by
  unfold query
  rw [if_neg (by simp), hdns]
  show (match normalizeAll records with
    | Except.error e2 => Except.error e2
    | Except.ok ips =>
      if ips.isEmpty then Except.ok (response.mk f false ips "no response")
      else Except.ok (response.mk f false ips "")) =
    Except.ok (response.mk f false [] "no response")
  rw [hnorm]
  rfl

theorem dropVal_ok {α : Type} (r : OpResult α) (s2 : Circle)
    (h : dropVal r = OpResult.ok () s2) : ∃ a, r = OpResult.ok a s2 := by
  cases r with
  | ok v s => cases h; exact ⟨v, rfl⟩
  | exn m s => exact OpResult.noConfusion h
  | hang => exact OpResult.noConfusion h

theorem runNotStarted_ok_good (env : QueryEnv) (f : String) (s s2 : Circle)
    (a : String) (h : runNotStarted env f s = OpResult.ok a s2) :
    goodStateB s2 = true := by
  cases hsys : env.sys 443 with
  | success addrs =>
    cases addrs with
    | nil =>
      rw [runNotStarted_empty env f s hsys] at h
      exact OpResult.noConfusion h
    | cons b tl =>
      rw [runNotStarted_ok env f s b tl hsys] at h
      injection h with hval hstate
      rw [← hstate]
      exact goodStateB_mk s.authority s.port (1 % (b :: tl).length) b tl
        (Nat.mod_lt _ (Nat.succ_pos tl.length))
  | error e =>
    by_cases he : e = ""
    · subst he
      rw [runNotStarted_err_blank env f s hsys] at h
      exact OpResult.noConfusion h
    · rw [runNotStarted_err env f s e hsys he] at h
      exact OpResult.noConfusion h

theorem genNext_ok_good (env : QueryEnv) (s s2 : Circle) (a : String)
    (h : genNext env s = OpResult.ok a s2) : goodStateB s2 = true := by
  rcases s with ⟨au, po, lh, g, ad⟩
  cases g with
  | noneGen => exact OpResult.noConfusion h
  | dead => exact OpResult.noConfusion h
  | notStarted f =>
    exact runNotStarted_ok_good env f
      (Circle.mk au po lh (GenState.notStarted f) ad) s2 a h
  | running p =>
    cases ad with
    | nil => exact OpResult.noConfusion h
    | cons b tl =>
      injection h with hval hstate
      rw [← hstate]
      exact goodStateB_mk au po ((p + 1) % (b :: tl).length) b tl
        (Nat.mod_lt _ (Nat.succ_pos tl.length))

theorem circleAddr_ok_good (env : QueryEnv) (o : Option String) (s s2 : Circle)
    (a : String) (h : circleAddr env o s = OpResult.ok a s2) :
    goodStateB s2 = true := by
  rcases s with ⟨au, po, lh, g, ad⟩
  cases lh with
  | true => exact OpResult.noConfusion h
  | false =>
    cases o with
    | none => exact genNext_ok_good env (Circle.mk au po true g ad) s2 a h
    | some f =>
      by_cases hf : f = ""
      · subst hf
        exact genNext_ok_good env (Circle.mk au po true g ad) s2 a h
      · rw [circleAddr_resolve env f (Circle.mk au po false g ad) rfl hf] at h
        exact runNotStarted_ok_good env f
          (Circle.mk au po true (GenState.notStarted f) ad) s2 a h

theorem circleInit_ok_good (env : QueryEnv) (f : String) (po : Nat) (s : Circle)
    (h : circleInit env f po = OpResult.ok () s) : goodStateB s = true := by
  unfold circleInit at h
  obtain ⟨a, ha⟩ := dropVal_ok _ s h
  exact circleAddr_ok_good env (some f) _ s a ha

theorem refresh_ok_good (env : QueryEnv) (s s2 : Circle)
    (h : refresh env s = OpResult.ok () s2) : goodStateB s2 = true := by
  unfold refresh at h
  obtain ⟨a, ha⟩ := dropVal_ok _ s2 h
  exact circleAddr_ok_good env (some s.authority) s s2 a ha

/-! Concrete environments and pool states used by the counterexamples
and witnesses below. -/

/-- The system resolver answers one address; the direct DNS query would
report NXDOMAIN. -/
def envSysOkDnsNx : QueryEnv :=
  QueryEnv.mk (fun _ => SysOutcome.success ["10.0.0.9"]) DnsOutcome.nxdomain

/-- Both lookup paths fail: getaddrinfo raises with message timed out,
the direct query times out. -/
def envTimeout : QueryEnv :=
  QueryEnv.mk (fun _ => SysOutcome.error "timed out") DnsOutcome.timeout

/-- The system resolver answers a fresh two-address list. -/
def envNewTwo : QueryEnv :=
  QueryEnv.mk (fun _ => SysOutcome.success ["20.0.0.1", "20.0.0.2"])
    DnsOutcome.timeout

/-- The direct DNS query succeeds with the single record x (one
character). -/
def envDnsRecX : QueryEnv :=
  QueryEnv.mk (fun _ => SysOutcome.error "") (DnsOutcome.success ["x"])

/-- The direct DNS query succeeds with the single dotted-quad record
1.2.3.4. -/
def envDnsDotted : QueryEnv :=
  QueryEnv.mk (fun _ => SysOutcome.error "") (DnsOutcome.success ["1.2.3.4"])

/-- The system resolver answers a two-address list. -/
def envSysPair : QueryEnv :=
  QueryEnv.mk (fun _ => SysOutcome.success ["192.168.0.5", "192.168.0.6"])
    DnsOutcome.timeout

/-- The system resolver raises. -/
def envSysFail : QueryEnv :=
  QueryEnv.mk (fun _ => SysOutcome.error "resolution failed") DnsOutcome.timeout

/-- The system resolver succeeds with zero addresses. -/
def envSysEmpty : QueryEnv :=
  QueryEnv.mk (fun _ => SysOutcome.success []) DnsOutcome.nxdomain

/-- A quiescent pool over two cached addresses with the cursor past the
first address (exactly the state a successful construction leaves). -/
def poolTwo : Circle :=
  Circle.mk "hcp.example.com" 443 false (GenState.running 1)
    ["10.0.0.1", "10.0.0.2"]

/-- A quiescent pool over three cached addresses. -/
def poolThree : Circle :=
  Circle.mk "hcp.example.com" 443 false (GenState.running 1)
    ["10.0.0.1", "10.0.0.2", "10.0.0.3"]

/-! The claims. -/

/-- C1 counterexample: with the direct-query (bypass) outcome being
NXDOMAIN while the system resolver resolves the name, pool construction
still succeeds and installs the system-resolver addresses; under the
claim (construction resolves with bypassCache=true) this construction
would have to fail with the NXDOMAIN resolution error, as the second
conjunct shows the bypass-path result does. -/
theorem c1_counterexample :
    circleInit envSysOkDnsNx "hcp.example.com" 443 =
      OpResult.ok () (Circle.mk "hcp.example.com" 443 false
        (GenState.running 0) ["10.0.0.9"]) ∧
    query "hcp.example.com" false envSysOkDnsNx =
      Except.ok (response.mk "hcp.example.com" false []
        "NXDOMAIN - The query name does not exist.") :=
  ⟨rfl, rfl⟩

/-- C1 (amended): pool construction and refresh() resolve through the
system-resolver path (query with cache=True, i.e. socket.getaddrinfo),
not the bypass path: their outcome is a function of the system-resolver
answer alone - replacing the bypass outcome changes nothing - and a
successful construction installs exactly the system-resolver address
list. -/
theorem c1_system_path :
    (∀ (f : String) (po : Nat) (env : QueryEnv) (d : DnsOutcome),
      circleInit env f po = circleInit (QueryEnv.mk env.sys d) f po) ∧
    (∀ (s : Circle) (env : QueryEnv) (d : DnsOutcome),
      refresh env s = refresh (QueryEnv.mk env.sys d) s) ∧
    (∀ (f : String) (po : Nat) (env : QueryEnv) (a : String) (tl : List String),
      f ≠ "" → env.sys 443 = SysOutcome.success (a :: tl) →
      ∃ s, circleInit env f po = OpResult.ok () s ∧ s.addresses = a :: tl) := by
  refine ⟨?_, ?_, ?_⟩
  · intro f po env d
    exact circleInit_sys env (QueryEnv.mk env.sys d) f po rfl
  · intro s env d
    exact refresh_sys env (QueryEnv.mk env.sys d) s rfl
  · intro f po env a tl hf hs
    exact ⟨_, circleInit_ok env f po a tl hf hs, rfl⟩

/-- C1 witness: the amended theorem applied at a concrete name and
environment. -/
theorem c1_system_path_witness :
    ∃ s, circleInit envSysOkDnsNx "hcp.example.com" 443 = OpResult.ok () s ∧
      s.addresses = ["10.0.0.9"] :=
  c1_system_path.2.2 "hcp.example.com" 443 envSysOkDnsNx "10.0.0.9" []
    (by decide) rfl

/-- C2 counterexample: a pool caching two addresses refreshes against a
resolver that now fails; the error is surfaced (IpsError with the
failure text), but the previously cached list is NOT left unchanged: it
has been cleared to the empty list, and the next address request never
returns instead of serving from the old cache. -/
theorem c2_counterexample :
    refresh envTimeout poolTwo =
      OpResult.exn "timed out"
        (Circle.mk "hcp.example.com" 443 true GenState.dead []) ∧
    (Circle.mk "hcp.example.com" 443 true GenState.dead []).addresses ≠
      poolTwo.addresses ∧
    nextAddress envTimeout
        (Circle.mk "hcp.example.com" 443 true GenState.dead []) =
      OpResult.hang :=
  ⟨rfl, by decide, rfl⟩

/-- C2 (amended): when the resolution performed by refresh() fails with
a nonempty message, the IpsError carrying that message is surfaced to
the caller, but the pool state is corrupted rather than preserved: the
cached address list has already been cleared, the generator slot holds
a finished generator, the lock is left held, and every subsequent
nextAddress call blocks forever instead of serving from the old
cache. -/
theorem c2_refresh_failure_corrupts (env : QueryEnv) (s : Circle) (e : String)
    (hg : goodStateB s = true) (ha : s.authority ≠ "") (he : e ≠ "")
    (hs : env.sys 443 = SysOutcome.error e) :
    refresh env s =
      OpResult.exn e { s with addresses := [], generator := GenState.dead,
                              lockHeld := true } ∧
    ∀ env2 : QueryEnv,
      nextAddress env2 { s with addresses := [], generator := GenState.dead,
                                lockHeld := true } = OpResult.hang := by
  refine ⟨refresh_err env s e (goodStateB_lockHeld s hg) ha he hs, ?_⟩
  intro env2
  exact circleAddr_locked env2 none _ rfl

/-- C2 witness: the amended theorem applied at a concrete two-address
pool and a timing-out resolver. -/
theorem c2_refresh_failure_corrupts_witness :
    refresh envTimeout poolTwo =
      OpResult.exn "timed out"
        { poolTwo with addresses := [], generator := GenState.dead,
                       lockHeld := true } :=
  (c2_refresh_failure_corrupts envTimeout poolTwo "timed out"
    (by decide) (by decide) (by decide) rfl).1

/-- C3: the claim (and the query() docstring) says query never raises
and signals everything through the raised attribute of the returned
response; but on a successful bypass answer whose record text is
shorter than two characters, the normalization expression ip[1] raises
an IndexError that escapes query(): the single record x is a concrete
failing input. -/
theorem c3_query_raises_on_malformed_record :
    query "hcp.example.com" false envDnsRecX =
      Except.error "IndexError: string index out of range" := rfl

/-- C4 counterexample: a successful refresh() installs the two new
addresses, yet the FIRST nextAddress call after it returns the second
address of the new list, not the first as the claim states - the
refresh call itself already consumed the first one. -/
theorem c4_counterexample :
    refresh envNewTwo poolTwo =
      OpResult.ok () (Circle.mk "hcp.example.com" 443 false
        (GenState.running 1) ["20.0.0.1", "20.0.0.2"]) ∧
    nextAddress envNewTwo (Circle.mk "hcp.example.com" 443 false
        (GenState.running 1) ["20.0.0.1", "20.0.0.2"]) =
      OpResult.ok "20.0.0.2" (Circle.mk "hcp.example.com" 443 false
        (GenState.running 0) ["20.0.0.1", "20.0.0.2"]) ∧
    "20.0.0.2" ≠ "20.0.0.1" :=
  ⟨rfl, rfl, by decide⟩

/-- C4 (amended): a successful refresh() replaces the cache with the
newly resolved list and restarts the cycle at its head, but the refresh
call itself consumes the first yielded address when it starts the new
generator, so the first nextAddress call following the refresh returns
the element at index 1 mod N of the new list (the second address
whenever N is at least 2), and iteration continues cyclically from
there. -/
theorem c4_refresh_consumes_first (env : QueryEnv) (s : Circle) (a : String)
    (tl : List String) (hl : s.lockHeld = false) (ha : s.authority ≠ "")
    (hs : env.sys 443 = SysOutcome.success (a :: tl)) :
    refresh env s =
      OpResult.ok () { s with addresses := a :: tl,
                              generator := GenState.running (1 % (a :: tl).length),
                              lockHeld := false } ∧
    ∀ env2 : QueryEnv, ∃ s2,
      nextAddress env2
          { s with addresses := a :: tl,
                   generator := GenState.running (1 % (a :: tl).length),
                   lockHeld := false } =
        OpResult.ok ((a :: tl).getD (1 % (a :: tl).length) "") s2 := by
  refine ⟨refresh_ok env s a tl hl ha hs, ?_⟩
  intro env2
  rcases s with ⟨au, po, lh, g, ad⟩
  refine ⟨Circle.mk au po false
    (GenState.running ((1 % (a :: tl).length + 1) % (a :: tl).length))
    (a :: tl), ?_⟩
  have hpos : 0 < (a :: tl).length := by simp
  have h := nextAddress_running env2 au po (1 % (a :: tl).length) a tl
  rw [Nat.mod_eq_of_lt (Nat.mod_lt 1 hpos)] at h
  exact h

/-- C4 witness: the amended theorem applied at a concrete pool and a
two-address refresh answer. -/
theorem c4_refresh_consumes_first_witness :
    refresh envNewTwo poolTwo =
      OpResult.ok ()
        { poolTwo with
            addresses := ["20.0.0.1", "20.0.0.2"],
            generator := GenState.running
              (1 % (["20.0.0.1", "20.0.0.2"] : List String).length),
            lockHeld := false } :=
  (c4_refresh_consumes_first envNewTwo poolTwo "20.0.0.1" ["20.0.0.2"]
    (by decide) (by decide) rfl).1

/-- C5: from any quiescent pool state over the cached list l with the
cursor at position p and no intervening refresh, the next l.length
nextAddress calls return exactly the cyclic rotation of l at p - every
cached address exactly once, in the resolution order of the list - and
leave the pool in the starting state; 2 times l.length calls return
that same cycle twice in a row, so each address appears exactly twice
and the second occurrence of each comes only after every address has
occurred once; the rotation is a permutation of the cached list. -/
theorem c5_round_robin_cycle (env : QueryEnv) (au : String) (po p : Nat)
    (l : List String) (hp : p < l.length) :
    nextN env l.length (Circle.mk au po false (GenState.running p) l) =
      some (l.rotate p, Circle.mk au po false (GenState.running p) l) ∧
    nextN env (2 * l.length) (Circle.mk au po false (GenState.running p) l) =
      some (l.rotate p ++ l.rotate p,
        Circle.mk au po false (GenState.running p) l) ∧
    (l.rotate p).Perm l := by
  rcases l with _ | ⟨a, tl⟩
  · exact absurd hp (by simp)
  · have h1 := nextN_running env au po a tl (a :: tl).length p hp
    rw [window_rotate (a :: tl) p hp] at h1
    have hend : (p + (a :: tl).length) % (a :: tl).length = p := by
      rw [Nat.add_mod_right]
      exact Nat.mod_eq_of_lt hp
    rw [hend] at h1
    have h2 := nextN_running env au po a tl
      ((a :: tl).length + (a :: tl).length) p hp
    rw [window_rotate_two (a :: tl) p hp] at h2
    have hend2 : (p + ((a :: tl).length + (a :: tl).length)) %
        (a :: tl).length = p := by
      have hsplit : p + ((a :: tl).length + (a :: tl).length) =
          p + (a :: tl).length + (a :: tl).length := by omega
      rw [hsplit, Nat.add_mod_right, Nat.add_mod_right]
      exact Nat.mod_eq_of_lt hp
    rw [hend2] at h2
    refine ⟨h1, ?_, List.rotate_perm (a :: tl) p⟩
    rw [two_mul]
    exact h2

/-- C5 witness: the cycle theorem applied at a concrete three-address
pool with the cursor at position 1. -/
theorem c5_round_robin_cycle_witness :
    nextN envTimeout (["10.0.0.1", "10.0.0.2", "10.0.0.3"] : List String).length
        (Circle.mk "hcp.example.com" 443 false (GenState.running 1)
          ["10.0.0.1", "10.0.0.2", "10.0.0.3"]) =
      some ((["10.0.0.1", "10.0.0.2", "10.0.0.3"] : List String).rotate 1,
        Circle.mk "hcp.example.com" 443 false (GenState.running 1)
          ["10.0.0.1", "10.0.0.2", "10.0.0.3"]) ∧
    nextN envTimeout
        (2 * (["10.0.0.1", "10.0.0.2", "10.0.0.3"] : List String).length)
        (Circle.mk "hcp.example.com" 443 false (GenState.running 1)
          ["10.0.0.1", "10.0.0.2", "10.0.0.3"]) =
      some ((["10.0.0.1", "10.0.0.2", "10.0.0.3"] : List String).rotate 1 ++
          (["10.0.0.1", "10.0.0.2", "10.0.0.3"] : List String).rotate 1,
        Circle.mk "hcp.example.com" 443 false (GenState.running 1)
          ["10.0.0.1", "10.0.0.2", "10.0.0.3"]) ∧
    ((["10.0.0.1", "10.0.0.2", "10.0.0.3"] : List String).rotate 1).Perm
      ["10.0.0.1", "10.0.0.2", "10.0.0.3"] :=
  c5_round_robin_cycle envTimeout "hcp.example.com" 443 1
    ["10.0.0.1", "10.0.0.2", "10.0.0.3"] (by decide)

/-- C6 counterexample: the record 1.2.3.4 has the non-digit dot as its
second character, so under the claim it would have to be rendered by
decoding its last 8 hexadecimal characters (a rendering that does not
even exist for these characters - the claim-prescribed rule errors),
yet query() appends the record unchanged: the code tests for the hash
mark, not for any non-digit second character. -/
theorem c6_counterexample :
    ("1.2.3.4".data.get? 1 = some '.') ∧
    ('.'.isDigit = false) ∧
    query "hcp.example.com" false envDnsDotted =
      Except.ok (response.mk "hcp.example.com" false ["1.2.3.4"] "") ∧
    specNormalizeC6 "1.2.3.4" =
      Except.error "ValueError: invalid literal for int() with base 16" :=
  ⟨rfl, by decide, rfl, rfl⟩

/-- C6 (amended): normalization on the bypass path triggers on the
hash-mark type marker, not on every non-digit second character: a
record whose second character is anything other than the hash mark is
rendered unchanged; a record carrying the opaque-byte marker has its
last 8 hexadecimal characters decoded as four consecutive 2-digit hex
octets and rendered dotted-decimal, so the suffix C0A80101 yields
192.168.1.1; and the normalization runs on every record of a
successful answer before it enters the result list of the returned
response. -/
theorem c6_normalization :
    (∀ (ip : String) (c : Char), ip.data.get? 1 = some c → c ≠ '#' →
      normalizeRecord ip = Except.ok ip) ∧
    normalizeRecord "\\# 4 C0A80101" = Except.ok "192.168.1.1" ∧
    (∀ (f : String) (env : QueryEnv) (records : List String)
        (o : String) (os : List String),
      env.dns = DnsOutcome.success records →
      normalizeAll records = Except.ok (o :: os) →
      query f false env = Except.ok (response.mk f false (o :: os) "")) := by
  refine ⟨?_, rfl, ?_⟩
  · intro ip c hc hne
    simp only [normalizeRecord, hc]
    rw [if_neg hne]
  · intro f env records o os hdns hnorm
    exact query_bypass_success f env records o os hdns hnorm

/-- C6 witness: the amended theorem applied to a one-record answer in
the opaque-byte encoding with hex suffix C0A80101. -/
theorem c6_normalization_witness :
    query "hcp.example.com" false
        (QueryEnv.mk (fun _ => SysOutcome.error "")
          (DnsOutcome.success ["\\# 4 C0A80101"])) =
      Except.ok (response.mk "hcp.example.com" false ["192.168.1.1"] "") :=
  c6_normalization.2.2 "hcp.example.com"
    (QueryEnv.mk (fun _ => SysOutcome.error "")
      (DnsOutcome.success ["\\# 4 C0A80101"]))
    ["\\# 4 C0A80101"] "192.168.1.1" [] rfl rfl

/-- C7 counterexample: a pool is constructed successfully, a later
refresh() fails, and then the next nextAddress call does not return an
address: it never returns at all, blocking on the lock the failed
refresh left held (with the cache also cleared). -/
theorem c7_counterexample :
    circleInit envSysPair "cluster.example.org" 8000 =
      OpResult.ok () (Circle.mk "cluster.example.org" 8000 false
        (GenState.running 1) ["192.168.0.5", "192.168.0.6"]) ∧
    refresh envSysFail (Circle.mk "cluster.example.org" 8000 false
        (GenState.running 1) ["192.168.0.5", "192.168.0.6"]) =
      OpResult.exn "resolution failed"
        (Circle.mk "cluster.example.org" 8000 true GenState.dead []) ∧
    nextAddress envSysFail
        (Circle.mk "cluster.example.org" 8000 true GenState.dead []) =
      OpResult.hang :=
  ⟨rfl, rfl, rfl⟩

/-- C7 (amended): nextAddress returns an address (and leaves another
such state) from every quiescent pool state, i.e. every state reached
through successful construction, successful refreshes and nextAddress
calls only; but the guarantee does not survive a failed refresh: after
a refresh whose resolution raised, every subsequent nextAddress call
never returns, because the failed refresh left the lock held. -/
theorem c7_next_address :
    (∀ (env : QueryEnv) (s : Circle), goodStateB s = true →
      ∃ a s2, nextAddress env s = OpResult.ok a s2 ∧ goodStateB s2 = true) ∧
    (∀ (env : QueryEnv) (f : String) (po : Nat) (s : Circle),
      circleInit env f po = OpResult.ok () s → goodStateB s = true) ∧
    (∀ (env : QueryEnv) (s s2 : Circle),
      refresh env s = OpResult.ok () s2 → goodStateB s2 = true) ∧
    (∀ (env : QueryEnv) (s s2 : Circle) (m : String),
      refresh env s = OpResult.exn m s2 →
      ∀ env2 : QueryEnv, nextAddress env2 s2 = OpResult.hang) := by
  refine ⟨?_, ?_, ?_, ?_⟩
  · intro env s h
    obtain ⟨a, s2, h1, h2, _⟩ := nextAddress_good env s h
    exact ⟨a, s2, h1, h2⟩
  · intro env f po s h
    exact circleInit_ok_good env f po s h
  · intro env s s2 h
    exact refresh_ok_good env s s2 h
  · intro env s s2 m h env2
    exact circleAddr_locked env2 none s2 (refresh_exn_lockHeld env s s2 m h)

/-- C7 witness: the amended theorem applied at a concrete quiescent
two-address pool. -/
theorem c7_next_address_witness :
    ∃ a s2, nextAddress envSysFail poolTwo = OpResult.ok a s2 ∧
      goodStateB s2 = true :=
  c7_next_address.1 envSysFail poolTwo (by decide)

/-- C8 counterexample: on the system-resolver path an empty successful
lookup is returned as a response whose address list is empty AND whose
failure description is empty - neither side of the claimed exactly-one
alternative holds, and in particular an empty failure description here
comes with zero addresses. -/
theorem c8_counterexample :
    query "hcp.example.com" true envSysEmpty =
      Except.ok (response.mk "hcp.example.com" true [] "") ∧
    (response.mk "hcp.example.com" true ([] : List String) "").ips = [] ∧
    (response.mk "hcp.example.com" true ([] : List String) "").raised = "" :=
  ⟨rfl, rfl, rfl⟩

/-- C8 (amended): every response actually returned by query() has at
most one of a nonempty address list and a nonempty failure
description; on the bypass path the two are exactly complementary
provided the generic-exception message being wrapped is nonempty; the
exactly-one alternative fails only where a success carries no
addresses on the system path (or a wrapped message is itself the empty
string). -/
theorem c8_result_invariant :
    (∀ (f : String) (c : Bool) (env : QueryEnv) (r : response),
      query f c env = Except.ok r → ¬(r.ips ≠ [] ∧ r.raised ≠ "")) ∧
    (∀ (f : String) (env : QueryEnv) (r : response),
      env.dns ≠ DnsOutcome.otherError "" →
      query f false env = Except.ok r → (r.raised = "" ↔ r.ips ≠ [])) := by
  constructor
  · intro f c env r h
    cases c with
    | true =>
      cases hsys : env.sys 443 with
      | error e =>
        rw [query_sys_err f e env hsys] at h
        injection h with h2
        rw [← h2]
        simp
      | success addrs =>
        rw [query_sys_ok f addrs env hsys] at h
        injection h with h2
        rw [← h2]
        simp
    | false =>
      cases hd : env.dns
      case success records =>
        cases hn : normalizeAll records with
        | error e =>
          rw [query_bypass_raise f env records e hd hn] at h
          exact Except.noConfusion h
        | ok out =>
          cases out with
          | nil =>
            rw [query_bypass_success_empty f env records hd hn] at h
            injection h with h2
            rw [← h2]
            simp
          | cons o os =>
            rw [query_bypass_success f env records o os hd hn] at h
            injection h with h2
            rw [← h2]
            simp
      all_goals
        unfold query at h
        rw [if_neg (by simp), hd] at h
        injection h with h2
        rw [← h2]
        simp
  · intro f env r hdn h
    cases hd : env.dns
    case success records =>
      cases hn : normalizeAll records with
      | error e =>
        rw [query_bypass_raise f env records e hd hn] at h
        exact Except.noConfusion h
      | ok out =>
        cases out with
        | nil =>
          rw [query_bypass_success_empty f env records hd hn] at h
          injection h with h2
          rw [← h2]
          simp
        | cons o os =>
          rw [query_bypass_success f env records o os hd hn] at h
          injection h with h2
          rw [← h2]
          simp
    case otherError e =>
      have he : e ≠ "" := by
        intro hcon
        rw [hcon] at hd
        exact hdn hd
      unfold query at h
      rw [if_neg (by simp), hd] at h
      injection h with h2
      rw [← h2]
      simp [he]
    all_goals
      unfold query at h
      rw [if_neg (by simp), hd] at h
      injection h with h2
      rw [← h2]
      simp

/-- C8 witness: the amended theorem applied at a concrete successful
bypass lookup. -/
theorem c8_result_invariant_witness :
    (response.mk "hcp.example.com" false ["1.2.3.4"] "").raised = "" ↔
      (response.mk "hcp.example.com" false ["1.2.3.4"] "").ips ≠ [] :=
  c8_result_invariant.2 "hcp.example.com" envDnsDotted
    (response.mk "hcp.example.com" false ["1.2.3.4"] "") (by decide) rfl

/-- C9: the parameterless address request terminates with a value from
every quiescent pool state (whose cached list is nonempty by
quiescence); and when a resolution succeeds with zero addresses -
possible on the system-resolver path, where an empty success is not
converted to a failure - the round-robin generator yields nothing and
the address request inside construction or refresh never returns. -/
theorem c9_termination :
    (∀ (env : QueryEnv) (s : Circle), goodStateB s = true →
      ∃ a s2, nextAddress env s = OpResult.ok a s2) ∧
    (∀ (env : QueryEnv) (f : String) (po : Nat), f ≠ "" →
      env.sys 443 = SysOutcome.success [] →
      circleInit env f po = OpResult.hang) ∧
    (∀ (env : QueryEnv) (s : Circle), s.lockHeld = false →
      s.authority ≠ "" → env.sys 443 = SysOutcome.success [] →
      refresh env s = OpResult.hang) := by
  refine ⟨?_, ?_, ?_⟩
  · intro env s h
    obtain ⟨a, s2, h1, _, _⟩ := nextAddress_good env s h
    exact ⟨a, s2, h1⟩
  · intro env f po hf hs
    exact circleInit_empty env f po hf hs
  · intro env s hl ha hs
    exact refresh_empty env s hl ha hs

/-- C9 witness: a zero-address system-resolver success makes
construction block forever, and a quiescent pool serves an address. -/
theorem c9_termination_witness :
    circleInit envSysEmpty "hcp.example.com" 443 = OpResult.hang :=
  c9_termination.2.1 envSysEmpty "hcp.example.com" 443 (by decide) rfl

/-- A system resolver whose answer depends on the queried port: only
port 443 resolves. -/
def envPortProbe : QueryEnv :=
  QueryEnv.mk
    (fun p => if p = 443 then SysOutcome.success ["10.0.0.1"]
      else SysOutcome.error "other port")
    DnsOutcome.timeout

/-- Like envPortProbe but answering differently on every port other
than 443. -/
def envPortProbe2 : QueryEnv :=
  QueryEnv.mk
    (fun p => if p = 443 then SysOutcome.success ["10.0.0.1"]
      else SysOutcome.error "changed")
    DnsOutcome.timeout

/-- C10: the port given at pool construction has no influence on
resolution or on the addresses served: query() consults the system
resolver outcome only at the fixed port 443 (two environments agreeing
there and on the direct-query outcome are indistinguishable), and
construction, nextAddress and refresh are invariant under changing the
pool port - their results agree up to the stored port field, which no
operation reads. -/
theorem c10_port_independence :
    (∀ (f : String) (c : Bool) (env env2 : QueryEnv),
      env.sys 443 = env2.sys 443 → env.dns = env2.dns →
      query f c env = query f c env2) ∧
    (∀ (env : QueryEnv) (f : String) (p1 p2 : Nat),
      circleInit env f p1 = OpResult.mapState (setPort p1) (circleInit env f p2)) ∧
    (∀ (env : QueryEnv) (p : Nat) (s : Circle),
      nextAddress env (setPort p s) =
        OpResult.mapState (setPort p) (nextAddress env s)) ∧
    (∀ (env : QueryEnv) (p : Nat) (s : Circle),
      refresh env (setPort p s) =
        OpResult.mapState (setPort p) (refresh env s)) :=
  ⟨fun f c env env2 h1 h2 => query_env_only f c env env2 h1 h2,
   fun env f p1 p2 => circleInit_setPort env f p1 p2,
   fun env p s => nextAddress_setPort env p s,
   fun env p s => refresh_setPort env p s⟩

/-- C10 witness: two environments that differ in their answer on every
port except 443 give the same query result. -/
theorem c10_port_independence_witness :
    query "hcp.example.com" true envPortProbe =
      query "hcp.example.com" true envPortProbe2 :=
  c10_port_independence.1 "hcp.example.com" true envPortProbe envPortProbe2
    rfl rfl

end hcpsdk
